import Mathlib

/-
Verification of the gorender template-rendering package (src/render.go).

Modelling conventions:
- Go maps (`template.FuncMap`, `TemplateCache`) are modelled as association
  lists: an assignment `m[k] = v` prepends a binding, and `lookupMap` returns
  the most recently added binding, so lookup observations agree with the map.
- Go `error` values are strings (`errors.New` wraps a message string).
- External collaborators (`filepath.WalkDir`, `template.ParseFiles`,
  `Template.Execute`, `nosurf.Token`, the `http.ResponseWriter` sink) are
  parameters of an `Env` record: the code under verification only branches on
  success or failure of these calls and passes their results around.
- The output sink is modelled by its behaviour on the single `buf.WriteTo(w)`
  call; `RenderResult.sinkBytes` records the bytes that reached the sink.
-/

namespace GoRender

abbrev GoError := String

/-- Compiled `*template.Template` artifact; opaque to this core, produced by
the parse collaborator. -/
structure GoTemplate where
  tid : Nat
deriving DecidableEq, Repr

/-- A registered template callable. The three defaults are declared elsewhere
in the repository; user functions are arbitrary opaque callables. -/
inductive Func where
  | translateKey
  | or
  | containsErrors
  | user (n : Nat)
deriving DecidableEq, Repr

abbrev FuncMap := List (String × Func)

abbrev TemplateCache := List (String × GoTemplate)

/-- Lookup in an association-list map: most recent binding wins. -/
def lookupMap {V : Type} (n : String) : List (String × V) → Option V
  | [] => none
  | (k, v) :: rest => if k = n then some v else lookupMap n rest

/-- Go map assignment `m[k] = v`, modelled as prepending the binding. -/
def insertMap {V : Type} (m : List (String × V)) (k : String) (v : V) :
    List (String × V) :=
  (k, v) :: m

/-- Go `filepath.Base` for slash-separated paths: the last element of the
path after trailing slashes are removed, "." for the empty path, "/" when the
path is all slashes. -/
def filepathBase (p : String) : String :=
  if p = "" then "."
  else
    let stripped := (p.toList.reverse.dropWhile (fun c => c = '/')).reverse
    if stripped = [] then "/"
    else String.mk ((stripped.reverse.takeWhile (fun c => c ≠ '/')).reverse)

/-- Go `filepath.Ext`: the suffix beginning at the final dot in the final
slash-separated element of the path, empty when that element has no dot. -/
def filepathExt (p : String) : String :=
  let relem := p.toList.reverse.takeWhile (fun c => c ≠ '/')
  let pre := relem.takeWhile (fun c => c ≠ '.')
  if pre.length = relem.length then ""
  else String.mk ('.' :: pre.reverse)

/-- Modelled from the spec: `Pages` is the page-identifier discriminator type
declared elsewhere in the repository; an opaque tag. -/
structure Pages where
  tag : Nat
deriving DecidableEq, Repr

/-- Modelled from the spec: `FormData` (declared elsewhere in the repository)
holds form validation errors plus the values entered in the fields; opaque
payload for this core. -/
structure FormData where
  fieldErrors : List (String × String)
  fieldValues : List (String × String)
deriving DecidableEq, Repr

/-- A Go `interface\x7b\x7d` payload value; opaque to this core. -/
inductive GoValue where
  | str (s : String)
  | num (n : Int)
  | nil
deriving DecidableEq, Repr

/-- Opaque `*http.Request`. -/
structure Request where
  rid : Nat
deriving DecidableEq, Repr

structure TemplateData where
  Data : List (String × GoValue)
  SessionData : GoValue
  FeedbackData : List (String × String)
  FormData : GoRender.FormData
  CSRFToken : String
  Page : Pages
deriving DecidableEq, Repr

structure Render where
  EnableCache : Bool
  TemplatesPath : String
  PageTemplatesPath : String
  TemplateCache : GoRender.TemplateCache
  Functions : FuncMap
deriving DecidableEq, Repr

/-- One callback invocation of `filepath.WalkDir`: either a visited entry
(path plus directory flag) or a traversal failure passed to the callback. -/
inductive WalkEvent where
  | entry (path : String) (isDir : Bool)
  | failure (e : GoError)
deriving DecidableEq, Repr

/-- The external world: file-system traversal, template compilation, template
execution and the anti-forgery token capability (`nosurf.Token`). -/
structure Env where
  walk : String → List WalkEvent
  parse : String → FuncMap → List String → Except GoError GoTemplate
  exec : GoTemplate → TemplateData → Except GoError String
  tokenOf : Request → String

/-- The callback loop of `findHTMLFiles`: abort on the first traversal error,
otherwise collect non-directory entries with extension ".html" in order. -/
def collectHTML : List WalkEvent → Except GoError (List String)
  | [] => Except.ok []
  | WalkEvent.failure e :: _ => Except.error e
  | WalkEvent.entry p d :: rest =>
    if !d && filepathExt p = ".html" then
      (collectHTML rest).map (fun fs => p :: fs)
    else collectHTML rest

/-- `findHTMLFiles(root)`: walk the root and collect ".html" files; on a walk
error return the error and no files. -/
def findHTMLFiles (env : Env) (root : String) : Except GoError (List String) :=
  collectHTML (env.walk root)

/-- The page loop of `createTemplateCache`: for each page file, compile it
together with all shared template files under its base name; on the first
compile failure stop and return the partial cache together with the error. -/
def buildPages (env : Env) (funcs : FuncMap) (files : List String) :
    List String → GoRender.TemplateCache → GoRender.TemplateCache × Option GoError
  | [], cache => (cache, none)
  | file :: rest, cache =>
    match env.parse (filepathBase file) funcs (files ++ [file]) with
    | Except.error err => (cache, some err)
    | Except.ok ts => buildPages env funcs files rest (insertMap cache (filepathBase file) ts)

/-- `Render.createTemplateCache`: discover pages and shared templates, then
compile one bundle per page. Returns the (possibly partial) cache and the
error, mirroring the Go multiple-return value. -/
def createTemplateCache (env : Env) (re : Render) :
    GoRender.TemplateCache × Option GoError :=
  match findHTMLFiles env re.PageTemplatesPath with
  | Except.error err => ([], some err)
  | Except.ok pagesTemplates =>
    match findHTMLFiles env re.TemplatesPath with
    | Except.error err => ([], some err)
    | Except.ok files => buildPages env re.Functions files pagesTemplates []

/-- The merge loop of `WithRenderOptions`: each supplied entry is assigned
into the receiver's function map. -/
def mergeFuncs (base opts : FuncMap) : FuncMap :=
  opts.foldl (fun m kv => insertMap m kv.1 kv.2) base

/-- `WithRenderOptions(opts)`: always copy both paths from `opts`, merge the
supplied functions into the receiver's registry, and only when
`opts.EnableCache` is true set the flag and build the cache, discarding the
build error. -/
def WithRenderOptions (env : Env) (opts : Render) : Render → Render :=
  fun re =>
    let re1 : Render :=
      { re with
        TemplatesPath := opts.TemplatesPath
        PageTemplatesPath := opts.PageTemplatesPath
        Functions := mergeFuncs re.Functions opts.Functions }
    if opts.EnableCache then
      let re2 : Render := { re1 with EnableCache := opts.EnableCache }
      { re2 with TemplateCache := (createTemplateCache env re2).1 }
    else re1

/-- The default function registry built inside `New`. -/
def defaultFunctions : FuncMap :=
  [("translateKey", Func.translateKey), ("or", Func.or),
   ("containsErrors", Func.containsErrors)]

/-- `Render.apply`: apply each option in order to the configuration. -/
def Render.apply (re : Render) (opts : List (Render → Render)) : Render :=
  opts.foldl (fun r o => o r) re

/-- `New(opts...)`: the default configuration with the options applied. -/
def New (opts : List (Render → Render)) : Render :=
  Render.apply
    { EnableCache := false
      TemplatesPath := "templates"
      PageTemplatesPath := "templates/pages"
      TemplateCache := []
      Functions := defaultFunctions } opts

/-- `addDefaultData`: inject the anti-forgery token for the request into the
view data. -/
def addDefaultData (env : Env) (td : TemplateData) (r : Request) : TemplateData :=
  { td with CSRFToken := env.tokenOf r }

/-- Behaviour of the output sink on the single `buf.WriteTo(w)` call. -/
inductive SinkBehavior where
  | accepts
  | fails (e : GoError)
deriving DecidableEq, Repr

/-- Observable outcome of one `Render.Template` call: the returned error, the
bytes that reached the output sink, and the final state of the view data the
caller passed in by pointer. -/
structure RenderResult where
  err : Option GoError
  sinkBytes : String
  td : TemplateData
deriving DecidableEq, Repr

/-- Cache resolution at the top of `Render.Template`: use the persistent
cache when enabled, otherwise build a fresh cache (with its error). -/
def resolveCache (env : Env) (re : Render) :
    GoRender.TemplateCache × Option GoError :=
  if re.EnableCache then (re.TemplateCache, none) else createTemplateCache env re

/-- `Render.Template(w, r, tmpl, td)`: resolve the cache, look up the bundle,
inject default data, execute into the staging buffer, and flush the buffer to
the sink. A flush failure is logged but the function still returns nil. -/
def Render.Template (env : Env) (re : Render) (w : SinkBehavior) (r : Request)
    (tmpl : String) (td : TemplateData) : RenderResult :=
  match (resolveCache env re).2 with
  | some err => ⟨some err, "", td⟩
  | none =>
    match lookupMap tmpl (resolveCache env re).1 with
    | none => ⟨some "can\x27t get template from cache", "", td⟩
    | some t =>
      match env.exec t (addDefaultData env td r) with
      | Except.error err => ⟨some err, "", addDefaultData env td r⟩
      | Except.ok out =>
        match w with
        | SinkBehavior.accepts => ⟨none, out, addDefaultData env td r⟩
        | SinkBehavior.fails _ => ⟨none, "", addDefaultData env td r⟩

/-- The last file in a discovery list whose base name is `n` (the file
discovered latest in traversal order with that base name). -/
def lastWithBase (n : String) : List String → Option String
  | [] => none
  | f :: rest =>
    match lastWithBase n rest with
    | some g => some g
    | none => if filepathBase f = n then some f else none

/-- Concrete environment used for witnesses and counterexamples. -/
def envU : Env :=
  { walk := fun root =>
      if root = "pages" then
        [WalkEvent.entry "pages" true, WalkEvent.entry "pages/home.html" false,
         WalkEvent.entry "pages/about.html" false]
      else if root = "frag" then
        [WalkEvent.entry "frag" true, WalkEvent.entry "frag/layout.html" false]
      else if root = "pz" then
        [WalkEvent.entry "pz" true, WalkEvent.entry "pz/home.html" false,
         WalkEvent.entry "pz/bad.html" false, WalkEvent.entry "pz/late.html" false]
      else [WalkEvent.failure "no such directory"]
    parse := fun name _ _ =>
      if name = "bad.html" then Except.error "compile failed"
      else Except.ok ⟨name.length⟩
    exec := fun _ td =>
      if td.Page.tag = 99 then Except.error "missing field" else Except.ok "OUT"
    tokenOf := fun _ => "token" }

/-- A view data value with no token injected yet. -/
def td0 : TemplateData :=
  { Data := [], SessionData := GoValue.nil, FeedbackData := [],
    FormData := { fieldErrors := [], fieldValues := [] },
    CSRFToken := "", Page := ⟨0⟩ }

/-- A view data value on which execution fails in `envU`. -/
def tdBad : TemplateData :=
  { td0 with Page := ⟨99⟩ }

/-- A cache-enabled configuration with one cached bundle. -/
def reCacheW : Render :=
  { EnableCache := true, TemplatesPath := "frag", PageTemplatesPath := "pages",
    TemplateCache := [("home.html", ⟨9⟩)], Functions := defaultFunctions }

theorem lookupMap_insertMap {V : Type} (m : List (String × V)) (k n : String) (v : V) :
    lookupMap n (insertMap m k v) = if k = n then some v else lookupMap n m := rfl

theorem lookupMap_append {V : Type} (l₁ l₂ : List (String × V)) (n : String) :
    lookupMap n (l₁ ++ l₂) =
      match lookupMap n l₁ with
      | some v => some v
      | none => lookupMap n l₂ := by
  induction l₁ with
  | nil => rfl
  | cons kv rest ih =>
    cases kv with
    | mk k v =>
      by_cases h : k = n
      · simp [lookupMap, h]
      · simp [lookupMap, h, ih]

theorem lookupMap_eq_none {V : Type} (l : List (String × V)) (n : String)
    (h : n ∉ l.map Prod.fst) : lookupMap n l = none := by
  induction l with
  | nil => rfl
  | cons kv rest ih =>
    simp only [List.map_cons, List.mem_cons] at h
    push_neg at h
    cases kv with
    | mk k v =>
      simp only [lookupMap]
      rw [if_neg (fun hh => h.1 hh.symm)]
      exact ih h.2

theorem lookupMap_isSome_of_mem {V : Type} (l : List (String × V)) (n : String)
    (h : n ∈ l.map Prod.fst) : (lookupMap n l).isSome = true := by
  induction l with
  | nil => simp at h
  | cons kv rest ih =>
    simp only [List.map_cons, List.mem_cons] at h
    cases kv with
    | mk k v =>
      by_cases hk : k = n
      · simp [lookupMap, hk]
      · rcases h with h | h
        · exact absurd h.symm hk
        · simp [lookupMap, hk, ih h]

theorem lookupMap_reverse {V : Type} (l : List (String × V))
    (h : (l.map Prod.fst).Nodup) (n : String) :
    lookupMap n l.reverse = lookupMap n l := by
  induction l with
  | nil => rfl
  | cons kv rest ih =>
    simp only [List.map_cons, List.nodup_cons] at h
    cases kv with
    | mk k v =>
      rw [List.reverse_cons, lookupMap_append]
      by_cases hk : k = n
      · subst hk
        have hnone : lookupMap k rest.reverse = none := by
          apply lookupMap_eq_none
          simpa using h.1
        rw [hnone]
        simp [lookupMap]
      · have ihh := ih h.2
        cases hc : lookupMap n rest with
        | none => simp [lookupMap, hk, ihh, hc]
        | some v => simp [lookupMap, hk, ihh, hc]

theorem mergeFuncs_eq (base opts : FuncMap) :
    mergeFuncs base opts = opts.reverse ++ base := by
  induction opts generalizing base with
  | nil => rfl
  | cons kv rest ih =>
    cases kv with
    | mk k v =>
      show mergeFuncs ((k, v) :: base) rest = ((k, v) :: rest).reverse ++ base
      rw [ih]
      simp

theorem lookupMap_mergeFuncs (base opts : FuncMap)
    (hnd : (opts.map Prod.fst).Nodup) (n : String) :
    lookupMap n (mergeFuncs base opts) =
      match lookupMap n opts with
      | some v => some v
      | none => lookupMap n base := by
  rw [mergeFuncs_eq, lookupMap_append, lookupMap_reverse opts hnd n]
  cases lookupMap n opts <;> rfl

/-- C7: merging a supplied function registry into the base registry gives
supplied entries priority over same-named base entries, preserves base-only
entries, and drops no function present in either registry. -/
theorem C7_merge_registry (base opts : FuncMap)
    (hnd : (opts.map Prod.fst).Nodup) :
    (∀ n v, lookupMap n opts = some v →
      lookupMap n (mergeFuncs base opts) = some v) ∧
    (∀ n, lookupMap n opts = none →
      lookupMap n (mergeFuncs base opts) = lookupMap n base) ∧
    (∀ n, n ∈ base.map Prod.fst ∨ n ∈ opts.map Prod.fst →
      (lookupMap n (mergeFuncs base opts)).isSome = true) := by
  refine ⟨?_, ?_, ?_⟩
  · intro n v hv
    rw [lookupMap_mergeFuncs base opts hnd n, hv]
  · intro n hn
    rw [lookupMap_mergeFuncs base opts hnd n, hn]
  · intro n hn
    rw [lookupMap_mergeFuncs base opts hnd n]
    cases hc : lookupMap n opts with
    | some v => simp
    | none =>
      rcases hn with hn | hn
      · simpa using lookupMap_isSome_of_mem base n hn
      · have := lookupMap_isSome_of_mem opts n hn
        rw [hc] at this
        simp at this

theorem C7_merge_registry_witness :
    ((([("b", Func.user 3), ("c", Func.user 4)] : FuncMap).map Prod.fst).Nodup ∧
      lookupMap "b" ([("b", Func.user 3), ("c", Func.user 4)] : FuncMap) =
        some (Func.user 3)) ∧
    lookupMap "b"
        (mergeFuncs [("a", Func.user 1), ("b", Func.user 2)]
          [("b", Func.user 3), ("c", Func.user 4)]) = some (Func.user 3) :=
  ⟨⟨by decide, by decide⟩,
    (C7_merge_registry [("a", Func.user 1), ("b", Func.user 2)]
        [("b", Func.user 3), ("c", Func.user 4)] (by decide)).1
      "b" (Func.user 3) (by decide)⟩

/-- C9: `New` without options yields caching disabled, the default template
paths, an empty cache, and exactly the three default functions. -/
theorem C9_new_defaults :
    New [] =
      { EnableCache := false
        TemplatesPath := "templates"
        PageTemplatesPath := "templates/pages"
        TemplateCache := []
        Functions := [("translateKey", Func.translateKey), ("or", Func.or),
                      ("containsErrors", Func.containsErrors)] } := rfl

/-- C8 counterexample: applying an option with `EnableCache = true` and
`TemplatesPath = "a"`, then an option with `EnableCache = false` and empty
paths, leaves `EnableCache` true (the later false does not override) and
overwrites `TemplatesPath` with the empty string (the earlier path is not
kept), contradicting the claim, which predicts `false` and `"a"`. -/
theorem C8_option_order_counterexample :
    (New [WithRenderOptions envU
            { EnableCache := true, TemplatesPath := "a", PageTemplatesPath := "b",
              TemplateCache := [], Functions := [] },
          WithRenderOptions envU
            { EnableCache := false, TemplatesPath := "", PageTemplatesPath := "",
              TemplateCache := [], Functions := [] }]).EnableCache = true ∧
    (New [WithRenderOptions envU
            { EnableCache := true, TemplatesPath := "a", PageTemplatesPath := "b",
              TemplateCache := [], Functions := [] },
          WithRenderOptions envU
            { EnableCache := false, TemplatesPath := "", PageTemplatesPath := "",
              TemplateCache := [], Functions := [] }]).TemplatesPath = "" :=
  ⟨rfl, rfl⟩

/-- C8 amended: each applied option always overwrites both path fields with
its own values (even empty ones); `EnableCache` is only switched on, never
off, by an option (a later false never overrides an earlier true); function
registries are merged with the supplied entries winning. -/
theorem C8_amended_option_application (env : Env) (opts re : Render) :
    (WithRenderOptions env opts re).TemplatesPath = opts.TemplatesPath ∧
    (WithRenderOptions env opts re).PageTemplatesPath = opts.PageTemplatesPath ∧
    (WithRenderOptions env opts re).EnableCache =
      (re.EnableCache || opts.EnableCache) ∧
    (WithRenderOptions env opts re).Functions =
      mergeFuncs re.Functions opts.Functions := by
  unfold WithRenderOptions
  by_cases h : opts.EnableCache = true
  · simp [h]
  · simp only [Bool.not_eq_true] at h
    simp [h]

/-- C1 counterexample: a call in which the bundle lookup and the execution
succeed but the copy of the staging buffer to the sink fails, yet
`Render.Template` returns nil (no error), contradicting the claim that such
a call reports an IOError. -/
theorem C1_flush_failure_counterexample :
    lookupMap "home.html" (resolveCache envU reCacheW).1 = some ⟨9⟩ ∧
    envU.exec ⟨9⟩ (addDefaultData envU td0 ⟨1⟩) = Except.ok "OUT" ∧
    (Render.Template envU reCacheW (SinkBehavior.fails "broken pipe") ⟨1⟩
        "home.html" td0).err = none :=
  ⟨rfl, rfl, rfl⟩

/-- C1 (amended): when bundle lookup and execution succeed but the copy of
the staging buffer to the output sink fails, `Render.Template` logs the
failure but returns nil: no error is reported to the caller, and no bytes
reach the sink. -/
theorem C1_amended_flush_failure_returns_nil (env : Env) (re : Render)
    (r : Request) (tmpl : String) (td : TemplateData) (t : GoTemplate)
    (out : String) (e : GoError)
    (hres : (resolveCache env re).2 = none)
    (hlook : lookupMap tmpl (resolveCache env re).1 = some t)
    (hexec : env.exec t (addDefaultData env td r) = Except.ok out) :
    Render.Template env re (SinkBehavior.fails e) r tmpl td =
      ⟨none, "", addDefaultData env td r⟩ := by
  simp only [Render.Template, hres, hlook, hexec]

theorem C1_amended_flush_failure_returns_nil_witness :
    ((resolveCache envU reCacheW).2 = none ∧
     lookupMap "home.html" (resolveCache envU reCacheW).1 = some ⟨9⟩ ∧
     envU.exec ⟨9⟩ (addDefaultData envU td0 ⟨1⟩) = Except.ok "OUT") ∧
    Render.Template envU reCacheW (SinkBehavior.fails "broken pipe") ⟨1⟩
        "home.html" td0 = ⟨none, "", addDefaultData envU td0 ⟨1⟩⟩ :=
  ⟨⟨rfl, rfl, rfl⟩,
    C1_amended_flush_failure_returns_nil envU reCacheW ⟨1⟩ "home.html" td0 ⟨9⟩
      "OUT" "broken pipe" rfl rfl rfl⟩

/-- C3: when executing the looked-up bundle against the view data fails,
`Render.Template` writes zero bytes to the output sink and returns the
execution error. -/
theorem C3_execution_failure (env : Env) (re : Render) (w : SinkBehavior)
    (r : Request) (tmpl : String) (td : TemplateData) (t : GoTemplate)
    (e : GoError)
    (hres : (resolveCache env re).2 = none)
    (hlook : lookupMap tmpl (resolveCache env re).1 = some t)
    (hexec : env.exec t (addDefaultData env td r) = Except.error e) :
    Render.Template env re w r tmpl td =
      ⟨some e, "", addDefaultData env td r⟩ := by
  simp only [Render.Template, hres, hlook, hexec]

theorem C3_execution_failure_witness :
    ((resolveCache envU reCacheW).2 = none ∧
     lookupMap "home.html" (resolveCache envU reCacheW).1 = some ⟨9⟩ ∧
     envU.exec ⟨9⟩ (addDefaultData envU tdBad ⟨1⟩) =
       Except.error "missing field") ∧
    Render.Template envU reCacheW SinkBehavior.accepts ⟨1⟩ "home.html" tdBad =
      ⟨some "missing field", "", addDefaultData envU tdBad ⟨1⟩⟩ :=
  ⟨⟨rfl, rfl, rfl⟩,
    C3_execution_failure envU reCacheW SinkBehavior.accepts ⟨1⟩ "home.html"
      tdBad ⟨9⟩ "missing field" rfl rfl rfl⟩

/-- C4: when the bundle name is absent from the resolved template cache,
`Render.Template` fails with the non-nil lookup error and writes zero bytes
to the output sink. -/
theorem C4_lookup_failure (env : Env) (re : Render) (w : SinkBehavior)
    (r : Request) (tmpl : String) (td : TemplateData)
    (hres : (resolveCache env re).2 = none)
    (hlook : lookupMap tmpl (resolveCache env re).1 = none) :
    Render.Template env re w r tmpl td =
      ⟨some "can\x27t get template from cache", "", td⟩ := by
  simp only [Render.Template, hres, hlook]

theorem C4_lookup_failure_witness :
    ((resolveCache envU reCacheW).2 = none ∧
     lookupMap "nope" (resolveCache envU reCacheW).1 = none) ∧
    Render.Template envU reCacheW SinkBehavior.accepts ⟨1⟩ "nope" td0 =
      ⟨some "can\x27t get template from cache", "", td0⟩ :=
  ⟨⟨rfl, rfl⟩,
    C4_lookup_failure envU reCacheW SinkBehavior.accepts ⟨1⟩ "nope" td0
      rfl rfl⟩

/-- C5: every render call that returns nil leaves the view data's CSRFToken
field equal to the token issued by the anti-forgery capability for that
call's request. -/
theorem C5_csrf_token (env : Env) (re : Render) (w : SinkBehavior)
    (r : Request) (tmpl : String) (td : TemplateData)
    (h : (Render.Template env re w r tmpl td).err = none) :
    (Render.Template env re w r tmpl td).td.CSRFToken = env.tokenOf r := by
  unfold Render.Template at h ⊢
  cases hres : (resolveCache env re).2 with
  | some e => simp [hres] at h
  | none =>
    simp only [hres] at h ⊢
    cases hlook : lookupMap tmpl (resolveCache env re).1 with
    | none => simp [hlook] at h
    | some t =>
      simp only [hlook] at h ⊢
      cases hex : env.exec t (addDefaultData env td r) with
      | error e => simp [hex] at h
      | ok out =>
        simp only [hex] at h ⊢
        cases w <;> simp [addDefaultData]

theorem C5_csrf_token_witness :
    ((Render.Template envU reCacheW SinkBehavior.accepts ⟨1⟩ "home.html"
        td0).err = none) ∧
    (Render.Template envU reCacheW SinkBehavior.accepts ⟨1⟩ "home.html"
        td0).td.CSRFToken = envU.tokenOf ⟨1⟩ :=
  ⟨rfl,
    C5_csrf_token envU reCacheW SinkBehavior.accepts ⟨1⟩ "home.html" td0 rfl⟩

/-- C10: when a render call fails because the fresh cache build fails or
because the bundle name is absent from the resolved cache, the view data
passed in is returned completely unchanged: the CSRFToken injection happens
only after the lookup succeeds. -/
theorem C10_viewdata_unchanged (env : Env) (re : Render) (w : SinkBehavior)
    (r : Request) (tmpl : String) (td : TemplateData)
    (h : (resolveCache env re).2 ≠ none ∨
         ((resolveCache env re).2 = none ∧
          lookupMap tmpl (resolveCache env re).1 = none)) :
    (Render.Template env re w r tmpl td).td = td := by
  unfold Render.Template
  rcases h with h | ⟨h1, h2⟩
  · cases hres : (resolveCache env re).2 with
    | none => exact absurd hres h
    | some e => simp [hres]
  · simp [h1, h2]

theorem C10_viewdata_unchanged_witness :
    ((resolveCache envU reCacheW).2 = none ∧
     lookupMap "nope" (resolveCache envU reCacheW).1 = none) ∧
    (Render.Template envU reCacheW SinkBehavior.accepts ⟨1⟩ "nope" td0).td =
      td0 :=
  ⟨⟨rfl, rfl⟩,
    C10_viewdata_unchanged envU reCacheW SinkBehavior.accepts ⟨1⟩ "nope" td0
      (Or.inr ⟨rfl, rfl⟩)⟩

/-- A no-cache configuration pointing at the concrete roots of `envU`. -/
def re6 : Render :=
  { EnableCache := false, TemplatesPath := "frag", PageTemplatesPath := "pages",
    TemplateCache := [], Functions := defaultFunctions }

/-- Options enabling the cache over a pages root whose second page fails to
compile in `envU`. -/
def optsZ : Render :=
  { EnableCache := true, TemplatesPath := "frag", PageTemplatesPath := "pz",
    TemplateCache := [], Functions := [] }

theorem lastWithBase_isSome (n : String) (pages : List String) :
    (lastWithBase n pages).isSome = true ↔ n ∈ pages.map filepathBase := by
  induction pages with
  | nil => simp [lastWithBase]
  | cons f rest ih =>
    simp only [lastWithBase, List.map_cons, List.mem_cons]
    cases hl : lastWithBase n rest with
    | some g =>
      have hm : n ∈ rest.map filepathBase := ih.mp (by simp [hl])
      simp [hm]
    | none =>
      have hm : n ∉ rest.map filepathBase := fun hc => by
        have := ih.mpr hc
        rw [hl] at this
        simp at this
      by_cases hb : filepathBase f = n
      · subst hb
        simp
      · simp [hb, hm, Ne.symm hb]

theorem lastWithBase_mem (n : String) (pages : List String) (g : String)
    (h : lastWithBase n pages = some g) : g ∈ pages ∧ filepathBase g = n := by
  induction pages with
  | nil => simp [lastWithBase] at h
  | cons f rest ih =>
    simp only [lastWithBase] at h
    cases hl : lastWithBase n rest with
    | some g2 =>
      rw [hl] at h
      have hg : g2 = g := by injection h
      subst hg
      obtain ⟨hm, hb⟩ := ih hl
      exact ⟨List.mem_cons_of_mem f hm, hb⟩
    | none =>
      rw [hl] at h
      by_cases hb : filepathBase f = n
      · rw [if_pos hb] at h
        have hg : f = g := by injection h
        subst hg
        exact ⟨List.mem_cons_self f rest, hb⟩
      · rw [if_neg hb] at h
        simp at h

theorem buildPages_ok (env : Env) (funcs : FuncMap) (files : List String) :
    ∀ (pages : List String) (acc : GoRender.TemplateCache),
      (∀ f ∈ pages,
        (env.parse (filepathBase f) funcs (files ++ [f])).toOption.isSome = true) →
      (buildPages env funcs files pages acc).2 = none ∧
      ∀ n, lookupMap n (buildPages env funcs files pages acc).1 =
        match lastWithBase n pages with
        | some f => (env.parse (filepathBase f) funcs (files ++ [f])).toOption
        | none => lookupMap n acc := by
  intro pages
  induction pages with
  | nil =>
    intro acc hok
    exact ⟨rfl, fun n => rfl⟩
  | cons f rest ih =>
    intro acc hok
    have hf := hok f (List.mem_cons_self f rest)
    cases hp : env.parse (filepathBase f) funcs (files ++ [f]) with
    | error e =>
      rw [hp] at hf
      simp [Except.toOption] at hf
    | ok t =>
      have hrest : ∀ g ∈ rest,
          (env.parse (filepathBase g) funcs (files ++ [g])).toOption.isSome = true :=
        fun g hg => hok g (List.mem_cons_of_mem f hg)
      obtain ⟨h2, hchar⟩ := ih (insertMap acc (filepathBase f) t) hrest
      constructor
      · simpa [buildPages, hp] using h2
      · intro n
        simp only [buildPages, hp]
        rw [hchar n]
        cases hl : lastWithBase n rest with
        | some g => simp [lastWithBase, hl]
        | none =>
          simp only [lastWithBase, hl]
          by_cases hb : filepathBase f = n
          · subst hb
            simp [lookupMap_insertMap, hp, Except.toOption]
          · simp [hb, lookupMap_insertMap]

theorem buildPages_fail (env : Env) (funcs : FuncMap) (files : List String) :
    ∀ (good : List String) (acc : GoRender.TemplateCache) (bad : String)
      (rest : List String) (e : GoError),
      (∀ f ∈ good,
        (env.parse (filepathBase f) funcs (files ++ [f])).toOption.isSome = true) →
      env.parse (filepathBase bad) funcs (files ++ [bad]) = Except.error e →
      (buildPages env funcs files (good ++ bad :: rest) acc).2 = some e ∧
      ∀ n, lookupMap n (buildPages env funcs files (good ++ bad :: rest) acc).1 =
        match lastWithBase n good with
        | some f => (env.parse (filepathBase f) funcs (files ++ [f])).toOption
        | none => lookupMap n acc := by
  intro good
  induction good with
  | nil =>
    intro acc bad rest e hok hbad
    constructor
    · simp [buildPages, hbad]
    · intro n
      simp [buildPages, hbad, lastWithBase]
  | cons f grest ih =>
    intro acc bad rest e hok hbad
    have hf := hok f (List.mem_cons_self f grest)
    cases hp : env.parse (filepathBase f) funcs (files ++ [f]) with
    | error e2 =>
      rw [hp] at hf
      simp [Except.toOption] at hf
    | ok t =>
      have hrest : ∀ g ∈ grest,
          (env.parse (filepathBase g) funcs (files ++ [g])).toOption.isSome = true :=
        fun g hg => hok g (List.mem_cons_of_mem f hg)
      obtain ⟨h2, hchar⟩ := ih (insertMap acc (filepathBase f) t) bad rest e hrest hbad
      constructor
      · simpa [buildPages, hp] using h2
      · intro n
        rw [List.cons_append]
        simp only [buildPages, hp]
        rw [hchar n]
        cases hl : lastWithBase n grest with
        | some g => simp [lastWithBase, hl]
        | none =>
          simp only [lastWithBase, hl]
          by_cases hb : filepathBase f = n
          · subst hb
            simp [lookupMap_insertMap, hp, Except.toOption]
          · simp [hb, lookupMap_insertMap]

theorem createTemplateCache_eq (env : Env) (re : Render)
    (pages files : List String)
    (hp : findHTMLFiles env re.PageTemplatesPath = Except.ok pages)
    (hf : findHTMLFiles env re.TemplatesPath = Except.ok files) :
    createTemplateCache env re = buildPages env re.Functions files pages [] := by
  unfold createTemplateCache
  rw [hp, hf]

/-- C6: when page and fragment discovery succeed and every page compiles,
the built cache has no error, its key set is exactly the set of distinct
base names of the discovered page files, and each entry is the bundle
compiled from the file with that base name discovered latest in traversal
order. -/
theorem C6_cache_contents (env : Env) (re : Render) (pages files : List String)
    (hp : findHTMLFiles env re.PageTemplatesPath = Except.ok pages)
    (hf : findHTMLFiles env re.TemplatesPath = Except.ok files)
    (hok : ∀ f ∈ pages,
      (env.parse (filepathBase f) re.Functions (files ++ [f])).toOption.isSome
        = true) :
    (createTemplateCache env re).2 = none ∧
    (∀ n, (lookupMap n (createTemplateCache env re).1).isSome = true ↔
      n ∈ pages.map filepathBase) ∧
    (∀ n, lookupMap n (createTemplateCache env re).1 =
      match lastWithBase n pages with
      | some f => (env.parse (filepathBase f) re.Functions (files ++ [f])).toOption
      | none => none) := by
  have hcr := createTemplateCache_eq env re pages files hp hf
  obtain ⟨h2, hchar⟩ := buildPages_ok env re.Functions files pages [] hok
  refine ⟨by rw [hcr]; exact h2, ?_, ?_⟩
  · intro n
    rw [hcr, hchar n, ← lastWithBase_isSome n pages]
    cases hl : lastWithBase n pages with
    | some g =>
      obtain ⟨hm, hb⟩ := lastWithBase_mem n pages g hl
      simp [hok g hm]
    | none => simp [lookupMap]
  · intro n
    rw [hcr, hchar n]
    cases lastWithBase n pages <;> rfl

theorem C6_cache_contents_witness :
    (findHTMLFiles envU re6.PageTemplatesPath =
        Except.ok ["pages/home.html", "pages/about.html"] ∧
     findHTMLFiles envU re6.TemplatesPath = Except.ok ["frag/layout.html"]) ∧
    ((lookupMap "home.html" (createTemplateCache envU re6).1).isSome = true ↔
      "home.html" ∈ (["pages/home.html", "pages/about.html"].map filepathBase)) :=
  ⟨⟨rfl, rfl⟩,
    (C6_cache_contents envU re6 ["pages/home.html", "pages/about.html"]
        ["frag/layout.html"] rfl rfl (by decide)).2.1 "home.html"⟩

/-- C2 counterexample: with caching enabled over a pages root whose second
page fails to compile, the build fails with a compile error, yet
`WithRenderOptions` installs the partial cache (containing exactly the page
compiled before the failure) as the configuration's final cache state and
discards the error, contradicting the claim that the error is surfaced and
no partial cache becomes final. -/
theorem C2_partial_cache_counterexample :
    (createTemplateCache envU
        { EnableCache := true, TemplatesPath := "frag",
          PageTemplatesPath := "pz", TemplateCache := [],
          Functions := defaultFunctions }).2 = some "compile failed" ∧
    (New [WithRenderOptions envU optsZ]).TemplateCache =
      [("home.html", ⟨9⟩)] :=
  ⟨rfl, rfl⟩

/-- C2 (amended): with caching enabled, when compiling some page fails
during the cache build, `WithRenderOptions` discards the error and installs
the partially built cache as the configuration's final cache state: its key
set is exactly the set of base names of the pages compiled before the
failure. -/
theorem C2_amended_partial_cache (env : Env) (opts re : Render)
    (good rest files : List String) (bad : String) (e : GoError)
    (hEn : opts.EnableCache = true)
    (hp : findHTMLFiles env opts.PageTemplatesPath =
      Except.ok (good ++ bad :: rest))
    (hf : findHTMLFiles env opts.TemplatesPath = Except.ok files)
    (hgood : ∀ f ∈ good,
      (env.parse (filepathBase f) (mergeFuncs re.Functions opts.Functions)
        (files ++ [f])).toOption.isSome = true)
    (hbad : env.parse (filepathBase bad)
      (mergeFuncs re.Functions opts.Functions) (files ++ [bad]) =
      Except.error e) :
    ∀ n, (lookupMap n (WithRenderOptions env opts re).TemplateCache).isSome
        = true ↔ n ∈ good.map filepathBase := by
  intro n
  have h1 : (WithRenderOptions env opts re).TemplateCache =
      (createTemplateCache env
        { EnableCache := opts.EnableCache
          TemplatesPath := opts.TemplatesPath
          PageTemplatesPath := opts.PageTemplatesPath
          TemplateCache := re.TemplateCache
          Functions := mergeFuncs re.Functions opts.Functions }).1 := by
    unfold WithRenderOptions
    rw [if_pos hEn]
  have h2 := createTemplateCache_eq env
    { EnableCache := opts.EnableCache
      TemplatesPath := opts.TemplatesPath
      PageTemplatesPath := opts.PageTemplatesPath
      TemplateCache := re.TemplateCache
      Functions := mergeFuncs re.Functions opts.Functions }
    (good ++ bad :: rest) files hp hf
  obtain ⟨hmain, hchar⟩ := buildPages_fail env
    (mergeFuncs re.Functions opts.Functions) files good [] bad rest e
    hgood hbad
  rw [h1, h2]
  show (lookupMap n (buildPages env (mergeFuncs re.Functions opts.Functions)
      files (good ++ bad :: rest) []).1).isSome = true ↔ _
  rw [hchar n, ← lastWithBase_isSome n good]
  cases hl : lastWithBase n good with
  | some g =>
    obtain ⟨hm, hb⟩ := lastWithBase_mem n good g hl
    simp [hgood g hm]
  | none => simp [lookupMap]

theorem C2_amended_partial_cache_witness :
    (optsZ.EnableCache = true ∧
     findHTMLFiles envU optsZ.PageTemplatesPath =
       Except.ok (["pz/home.html"] ++ "pz/bad.html" :: ["pz/late.html"]) ∧
     envU.parse (filepathBase "pz/bad.html")
       (mergeFuncs (New []).Functions optsZ.Functions)
       (["frag/layout.html"] ++ ["pz/bad.html"]) =
       Except.error "compile failed") ∧
    ((lookupMap "home.html"
        (WithRenderOptions envU optsZ (New [])).TemplateCache).isSome = true ↔
      "home.html" ∈ (["pz/home.html"].map filepathBase)) :=
  ⟨⟨rfl, rfl, rfl⟩,
    C2_amended_partial_cache envU optsZ (New []) ["pz/home.html"]
      ["pz/late.html"] ["frag/layout.html"] "pz/bad.html" "compile failed"
      rfl rfl rfl (by decide) rfl "home.html"⟩

end GoRender
